import Mathlib

/-!
Verification of the configuration normalizer of templexxx/nanozap
(package `zaproll`, file with `Config`, `Config.adjust`, `alignToPage`).

Go `int64` values are modelled as `Int` together with explicit wrap-around
(`wrap64`) applied wherever the Go code performs an arithmetic operation
that may overflow.  The bitwise clear `x &^ 4095` on a two's-complement
int64 equals `x - x % 4096` (with `%` the nonnegative Euclidean remainder),
since clearing the low 12 bits of the unsigned representation subtracts the
remainder and never changes the sign bit.
-/

namespace Zaproll

/-- Two's-complement wrap of a mathematical integer into the int64 range,
`[-2^63, 2^63)`.  Go's int64 arithmetic is the mathematical operation
followed by this wrap. -/
def wrap64 (x : Int) : Int :=
  (x + 9223372036854775808) % 18446744073709551616 - 9223372036854775808

/-- `Config` of zaproll (source: `type Config struct`).  `MaxSize` is in MB,
`PerWriteSize` in KB, `PerSyncSize` in MB; `Developed` is the relaxed/test
mode flag. -/
structure Config where
  OutputPath : String
  MaxSize : Int
  MaxBackups : Int
  LocalTime : Bool
  PerWriteSize : Int
  PerSyncSize : Int
  Developed : Bool
deriving DecidableEq, Repr

/-- `kb int64 = 1024` from the source. -/
def kb : Int := 1024

/-- `mb = 1024 * kb` from the source. -/
def mb : Int := 1024 * kb

/-- `defaultPerWriteSize = 64 * kb` from the source. -/
def defaultPerWriteSize : Int := 64 * kb

/-- `defaultPerSyncSize = 16 * mb` from the source. -/
def defaultPerSyncSize : Int := 16 * mb

/-- `defaultMaxSize = 128 * mb` from the source. -/
def defaultMaxSize : Int := 128 * mb

/-- `defaultMaxBackups = 4` from the source. -/
def defaultMaxBackups : Int := 4

/-- `pageSize = 1 << 12` from the source. -/
def pageSize : Int := 4096

/-- `alignToPage(n) = (n + pageSize - 1) &^ (pageSize - 1)` from the source.
The int64 addition wraps; the bitwise clear of the low 12 bits subtracts the
Euclidean remainder mod 4096. -/
def alignToPage (n : Int) : Int :=
  wrap64 (n + pageSize - 1) - wrap64 (n + pageSize - 1) % pageSize

/-- The unit-converted rotation size computed inside `Config.adjust`:
`if c.MaxSize <= 0 { defaultMaxSize } else { c.MaxSize * m }` where `m` is
`1` in developed mode and `mb` otherwise; the int64 product wraps. -/
def Config.convMaxSize (c : Config) : Int :=
  if c.MaxSize ≤ 0 then defaultMaxSize
  else wrap64 (c.MaxSize * (if c.Developed then 1 else mb))

/-- The unit-converted flush size computed inside `Config.adjust`:
`if c.PerWriteSize <= 0 { defaultPerWriteSize } else { c.PerWriteSize * k }`
where `k` is `1` in developed mode and `kb` otherwise. -/
def Config.convPerWriteSize (c : Config) : Int :=
  if c.PerWriteSize ≤ 0 then defaultPerWriteSize
  else wrap64 (c.PerWriteSize * (if c.Developed then 1 else kb))

/-- The unit-converted sync size computed inside `Config.adjust`:
`if c.PerSyncSize <= 0 { defaultPerSyncSize } else { c.PerSyncSize * m }`
where `m` is `1` in developed mode and `mb` otherwise. -/
def Config.convPerSyncSize (c : Config) : Int :=
  if c.PerSyncSize ≤ 0 then defaultPerSyncSize
  else wrap64 (c.PerSyncSize * (if c.Developed then 1 else mb))

/-- `Config.adjust` from the source.  Defaults replace non-positive fields,
positive fields are multiplied by their unit (int64 wrap); outside developed
mode the sync size is forced up to twice the flush size (int64 doubling,
which wraps) and all three sizes are then page-aligned. -/
def Config.adjust (c : Config) : Config :=
  let bk := if c.MaxBackups ≤ 0 then defaultMaxBackups else c.MaxBackups
  if c.Developed then
    { c with MaxSize := c.convMaxSize, MaxBackups := bk,
             PerWriteSize := c.convPerWriteSize,
             PerSyncSize := c.convPerSyncSize }
  else
    let ps :=
      if c.convPerSyncSize < wrap64 (2 * c.convPerWriteSize)
      then wrap64 (2 * c.convPerWriteSize)
      else c.convPerSyncSize
    { c with MaxSize := alignToPage c.convMaxSize, MaxBackups := bk,
             PerWriteSize := alignToPage c.convPerWriteSize,
             PerSyncSize := alignToPage ps }

/-- The spec's "rounded up to the nearest multiple of the platform page size
(4096 bytes)": the least multiple of 4096 that is ≥ `n`, as a mathematical
integer (no wrap).  Used to compare the code's `alignToPage` against the
spec's words. -/
def roundUpToPage (n : Int) : Int :=
  4096 * ((n + 4095) / 4096)

/-- A configuration with every negative size / backup field replaced by `0`;
used to state that `adjust` treats negative fields exactly like zero. -/
def zeroNegFields (c : Config) : Config :=
  { c with MaxSize := if c.MaxSize < 0 then 0 else c.MaxSize,
           MaxBackups := if c.MaxBackups < 0 then 0 else c.MaxBackups,
           PerWriteSize := if c.PerWriteSize < 0 then 0 else c.PerWriteSize,
           PerSyncSize := if c.PerSyncSize < 0 then 0 else c.PerSyncSize }

theorem wrap64_of_range {x : Int} (h1 : -9223372036854775808 ≤ x)
    (h2 : x < 9223372036854775808) : wrap64 x = x := by
  unfold wrap64
  omega

theorem wrap64_lb (x : Int) : -9223372036854775808 ≤ wrap64 x := by
  unfold wrap64
  omega

theorem wrap64_ub (x : Int) : wrap64 x < 9223372036854775808 := by
  unfold wrap64
  omega

theorem alignToPage_eq {n : Int} (h1 : -9223372036854775808 ≤ n)
    (h2 : n ≤ 9223372036854771712) :
    alignToPage n = n + 4095 - (n + 4095) % 4096 := by
  unfold alignToPage pageSize
  rw [wrap64_of_range (by omega) (by omega)]
  omega

theorem alignToPage_emod (n : Int) : alignToPage n % 4096 = 0 := by
  unfold alignToPage pageSize
  omega

theorem alignToPage_eq_roundUp {n : Int} (h1 : -9223372036854775808 ≤ n)
    (h2 : n ≤ 9223372036854771712) :
    alignToPage n = roundUpToPage n := by
  rw [alignToPage_eq h1 h2]
  unfold roundUpToPage
  omega

theorem adjust_OutputPath (c : Config) : c.adjust.OutputPath = c.OutputPath := by
  unfold Config.adjust
  cases hc : c.Developed <;> simp [hc]

theorem adjust_LocalTime (c : Config) : c.adjust.LocalTime = c.LocalTime := by
  unfold Config.adjust
  cases hc : c.Developed <;> simp [hc]

theorem adjust_Developed (c : Config) : c.adjust.Developed = c.Developed := by
  unfold Config.adjust
  cases hc : c.Developed <;> simp [hc]

theorem adjust_MaxBackups (c : Config) :
    c.adjust.MaxBackups =
      if c.MaxBackups ≤ 0 then defaultMaxBackups else c.MaxBackups := by
  unfold Config.adjust
  cases hc : c.Developed <;> simp [hc]

theorem adjust_MaxSize_dev (c : Config) (hdev : c.Developed = true) :
    c.adjust.MaxSize = c.convMaxSize := by
  unfold Config.adjust
  simp [hdev]

theorem adjust_PerWriteSize_dev (c : Config) (hdev : c.Developed = true) :
    c.adjust.PerWriteSize = c.convPerWriteSize := by
  unfold Config.adjust
  simp [hdev]

theorem adjust_PerSyncSize_dev (c : Config) (hdev : c.Developed = true) :
    c.adjust.PerSyncSize = c.convPerSyncSize := by
  unfold Config.adjust
  simp [hdev]

theorem adjust_MaxSize_not_dev (c : Config) (hdev : c.Developed = false) :
    c.adjust.MaxSize = alignToPage c.convMaxSize := by
  unfold Config.adjust
  simp [hdev]

theorem adjust_PerWriteSize_not_dev (c : Config) (hdev : c.Developed = false) :
    c.adjust.PerWriteSize = alignToPage c.convPerWriteSize := by
  unfold Config.adjust
  simp [hdev]

theorem adjust_PerSyncSize_not_dev (c : Config) (hdev : c.Developed = false) :
    c.adjust.PerSyncSize =
      alignToPage (if c.convPerSyncSize < wrap64 (2 * c.convPerWriteSize)
        then wrap64 (2 * c.convPerWriteSize) else c.convPerSyncSize) := by
  unfold Config.adjust
  simp [hdev]

theorem convMaxSize_pos_le (c : Config) (hdev : c.Developed = false)
    (hub : c.MaxSize ≤ 8796093022207) :
    0 < c.convMaxSize ∧ c.convMaxSize ≤ 9223372036853727232 := by
  have hm : (if c.Developed then (1 : Int) else mb) = 1048576 := by
    simp [hdev, mb, kb]
  unfold Config.convMaxSize
  rw [hm]
  by_cases h : c.MaxSize ≤ 0
  · rw [if_pos h]
    unfold defaultMaxSize mb kb
    omega
  · rw [if_neg h, wrap64_of_range (by omega) (by omega)]
    omega

theorem convPerWriteSize_pos_le (c : Config) (hdev : c.Developed = false)
    (hub : c.PerWriteSize ≤ 4503599627370494) :
    0 < c.convPerWriteSize ∧ c.convPerWriteSize ≤ 4611686018427385856 := by
  have hm : (if c.Developed then (1 : Int) else kb) = 1024 := by
    simp [hdev, kb]
  unfold Config.convPerWriteSize
  rw [hm]
  by_cases h : c.PerWriteSize ≤ 0
  · rw [if_pos h]
    unfold defaultPerWriteSize kb
    omega
  · rw [if_neg h, wrap64_of_range (by omega) (by omega)]
    omega

theorem convPerSyncSize_pos_le (c : Config) (hdev : c.Developed = false)
    (hub : c.PerSyncSize ≤ 8796093022207) :
    0 < c.convPerSyncSize ∧ c.convPerSyncSize ≤ 9223372036853727232 := by
  have hm : (if c.Developed then (1 : Int) else mb) = 1048576 := by
    simp [hdev, mb, kb]
  unfold Config.convPerSyncSize
  rw [hm]
  by_cases h : c.PerSyncSize ≤ 0
  · rw [if_pos h]
    unfold defaultPerSyncSize mb kb
    omega
  · rw [if_neg h, wrap64_of_range (by omega) (by omega)]
    omega

theorem convMaxSize_dev (c : Config) (hdev : c.Developed = true)
    (h0 : 0 < c.MaxSize) (hub : c.MaxSize < 9223372036854775808) :
    c.convMaxSize = c.MaxSize := by
  have hm : (if c.Developed then (1 : Int) else mb) = 1 := by simp [hdev]
  unfold Config.convMaxSize
  rw [hm, if_neg (by omega), mul_one, wrap64_of_range (by omega) (by omega)]

theorem convPerWriteSize_dev (c : Config) (hdev : c.Developed = true)
    (h0 : 0 < c.PerWriteSize) (hub : c.PerWriteSize < 9223372036854775808) :
    c.convPerWriteSize = c.PerWriteSize := by
  have hm : (if c.Developed then (1 : Int) else kb) = 1 := by simp [hdev]
  unfold Config.convPerWriteSize
  rw [hm, if_neg (by omega), mul_one, wrap64_of_range (by omega) (by omega)]

theorem convPerSyncSize_dev (c : Config) (hdev : c.Developed = true)
    (h0 : 0 < c.PerSyncSize) (hub : c.PerSyncSize < 9223372036854775808) :
    c.convPerSyncSize = c.PerSyncSize := by
  have hm : (if c.Developed then (1 : Int) else mb) = 1 := by simp [hdev]
  unfold Config.convPerSyncSize
  rw [hm, if_neg (by omega), mul_one, wrap64_of_range (by omega) (by omega)]

theorem convMaxSize_dev_pos (c : Config) (hdev : c.Developed = true)
    (hub : c.MaxSize < 9223372036854775808) :
    0 < c.convMaxSize := by
  have hm : (if c.Developed then (1 : Int) else mb) = 1 := by simp [hdev]
  unfold Config.convMaxSize
  rw [hm]
  by_cases h : c.MaxSize ≤ 0
  · rw [if_pos h]
    unfold defaultMaxSize mb kb
    omega
  · rw [if_neg h, mul_one, wrap64_of_range (by omega) (by omega)]
    omega

theorem convPerWriteSize_dev_pos (c : Config) (hdev : c.Developed = true)
    (hub : c.PerWriteSize < 9223372036854775808) :
    0 < c.convPerWriteSize := by
  have hm : (if c.Developed then (1 : Int) else kb) = 1 := by simp [hdev]
  unfold Config.convPerWriteSize
  rw [hm]
  by_cases h : c.PerWriteSize ≤ 0
  · rw [if_pos h]
    unfold defaultPerWriteSize kb
    omega
  · rw [if_neg h, mul_one, wrap64_of_range (by omega) (by omega)]
    omega

theorem convPerSyncSize_dev_pos (c : Config) (hdev : c.Developed = true)
    (hub : c.PerSyncSize < 9223372036854775808) :
    0 < c.convPerSyncSize := by
  have hm : (if c.Developed then (1 : Int) else mb) = 1 := by simp [hdev]
  unfold Config.convPerSyncSize
  rw [hm]
  by_cases h : c.PerSyncSize ≤ 0
  · rw [if_pos h]
    unfold defaultPerSyncSize mb kb
    omega
  · rw [if_neg h, mul_one, wrap64_of_range (by omega) (by omega)]
    omega

theorem convMaxSize_lt (c : Config) : c.convMaxSize < 9223372036854775808 := by
  unfold Config.convMaxSize
  by_cases h : c.MaxSize ≤ 0
  · rw [if_pos h]
    unfold defaultMaxSize mb kb
    omega
  · rw [if_neg h]
    exact wrap64_ub _

theorem convPerWriteSize_lt (c : Config) :
    c.convPerWriteSize < 9223372036854775808 := by
  unfold Config.convPerWriteSize
  by_cases h : c.PerWriteSize ≤ 0
  · rw [if_pos h]
    unfold defaultPerWriteSize kb
    omega
  · rw [if_neg h]
    exact wrap64_ub _

theorem convPerSyncSize_lt (c : Config) :
    c.convPerSyncSize < 9223372036854775808 := by
  unfold Config.convPerSyncSize
  by_cases h : c.PerSyncSize ≤ 0
  · rw [if_pos h]
    unfold defaultPerSyncSize mb kb
    omega
  · rw [if_neg h]
    exact wrap64_ub _

theorem config_eq_of_fields {a b : Config}
    (h1 : a.OutputPath = b.OutputPath) (h2 : a.MaxSize = b.MaxSize)
    (h3 : a.MaxBackups = b.MaxBackups) (h4 : a.LocalTime = b.LocalTime)
    (h5 : a.PerWriteSize = b.PerWriteSize) (h6 : a.PerSyncSize = b.PerSyncSize)
    (h7 : a.Developed = b.Developed) : a = b := by
  cases a
  cases b
  simp_all

theorem adjust_congr (a b : Config) (h1 : a.OutputPath = b.OutputPath)
    (h2 : a.LocalTime = b.LocalTime) (h3 : a.Developed = b.Developed)
    (h4 : a.convMaxSize = b.convMaxSize)
    (h5 : a.convPerWriteSize = b.convPerWriteSize)
    (h6 : a.convPerSyncSize = b.convPerSyncSize)
    (h7 : (if a.MaxBackups ≤ 0 then defaultMaxBackups else a.MaxBackups) =
          (if b.MaxBackups ≤ 0 then defaultMaxBackups else b.MaxBackups)) :
    a.adjust = b.adjust := by
  unfold Config.adjust
  rw [h3]
  cases hb : b.Developed
  · simp only [Bool.false_eq_true, if_false]
    exact config_eq_of_fields h1 (by rw [h4]) h7 h2 (by rw [h5]) (by rw [h4, h5, h6]) rfl
  · simp only [if_true]
    exact config_eq_of_fields h1 h4 h7 h2 h5 h6 rfl

theorem zeroNeg_convMaxSize (c : Config) :
    (zeroNegFields c).convMaxSize = c.convMaxSize := by
  simp only [Config.convMaxSize, zeroNegFields]
  by_cases h : c.MaxSize < 0
  · simp [h, le_of_lt h]
  · simp [h]

theorem zeroNeg_convPerWriteSize (c : Config) :
    (zeroNegFields c).convPerWriteSize = c.convPerWriteSize := by
  simp only [Config.convPerWriteSize, zeroNegFields]
  by_cases h : c.PerWriteSize < 0
  · simp [h, le_of_lt h]
  · simp [h]

theorem zeroNeg_convPerSyncSize (c : Config) :
    (zeroNegFields c).convPerSyncSize = c.convPerSyncSize := by
  simp only [Config.convPerSyncSize, zeroNegFields]
  by_cases h : c.PerSyncSize < 0
  · simp [h, le_of_lt h]
  · simp [h]

theorem zeroNeg_backups (c : Config) :
    (if (zeroNegFields c).MaxBackups ≤ 0 then defaultMaxBackups
      else (zeroNegFields c).MaxBackups) =
    (if c.MaxBackups ≤ 0 then defaultMaxBackups else c.MaxBackups) := by
  simp only [zeroNegFields]
  by_cases h : c.MaxBackups < 0
  · simp [h, le_of_lt h]
  · simp [h]

example : Config.adjust ⟨"", 0, 0, false, 0, 0, false⟩ =
    ⟨"", 134217728, 4, false, 65536, 16777216, false⟩ := by decide

example : Config.adjust ⟨"", 1, 2, true, 3, 4, true⟩ =
    ⟨"", 1, 2, true, 3, 4, true⟩ := by decide

example : Config.adjust ⟨"", 0, 0, false, 525, 1, false⟩ =
    ⟨"", 134217728, 4, false, 540672, 1077248, false⟩ := by decide

/-- C1 (counterexample): with `MaxSize = 0`, `MaxBackups = 0`,
`PerWriteSize = 525` (KB), `PerSyncSize = 1` (MB), `Developed = false`, the
adjusted sync size (1077248) is strictly smaller than twice the adjusted
flush size (2 × 540672 = 1081344): forcing the sync size to twice the flush
size happens before page alignment, and aligning `2*w` can land one page
below `2 * alignToPage w`. -/
theorem C1_counterexample :
    (Config.adjust ⟨"", 0, 0, false, 525, 1, false⟩).PerSyncSize <
      2 * (Config.adjust ⟨"", 0, 0, false, 525, 1, false⟩).PerWriteSize := by
  decide

/-- C1 (amended): for every raw configuration with `Developed = false` whose
raw `PerWriteSize` is at most `2^52 - 2` and raw `PerSyncSize` at most
`2^43 - 1` (so unit conversion and doubling do not overflow int64), the
adjusted sync size is at least twice the adjusted flush size minus one page
(4096 bytes). -/
theorem C1_sync_ge_twice_write_minus_page (c : Config)
    (hdev : c.Developed = false)
    (hW : c.PerWriteSize ≤ 4503599627370494)
    (hS : c.PerSyncSize ≤ 8796093022207) :
    2 * c.adjust.PerWriteSize - 4096 ≤ c.adjust.PerSyncSize := by
  obtain ⟨hw0, hwub⟩ := convPerWriteSize_pos_le c hdev hW
  obtain ⟨hs0, hsub⟩ := convPerSyncSize_pos_le c hdev hS
  rw [adjust_PerWriteSize_not_dev c hdev, adjust_PerSyncSize_not_dev c hdev,
    wrap64_of_range (by omega) (by omega)]
  by_cases hc : c.convPerSyncSize < 2 * c.convPerWriteSize
  · rw [if_pos hc, alignToPage_eq (by omega) (by omega),
      alignToPage_eq (by omega) (by omega)]
    omega
  · rw [if_neg hc, alignToPage_eq (by omega) (by omega),
      alignToPage_eq (by omega) (by omega)]
    omega

/-- C1 (witness): the amended bound instantiated at the all-default
configuration. -/
theorem C1_witness :
    2 * (Config.adjust ⟨"", 0, 0, false, 0, 0, false⟩).PerWriteSize - 4096 ≤
      (Config.adjust ⟨"", 0, 0, false, 0, 0, false⟩).PerSyncSize :=
  C1_sync_ge_twice_write_minus_page ⟨"", 0, 0, false, 0, 0, false⟩
    (by decide) (by decide) (by decide)

/-- C2 (counterexample): `adjust` is not idempotent.  On the all-default
configuration a second `adjust` multiplies the already-converted byte
values by the units again (128 MiB becomes 2^47 bytes, etc.). -/
theorem C2_counterexample :
    Config.adjust (Config.adjust ⟨"", 0, 0, false, 0, 0, false⟩) ≠
      Config.adjust ⟨"", 0, 0, false, 0, 0, false⟩ := by
  decide

/-- C2 (amended): `adjust` is idempotent on configurations in developed
(relaxed) mode, where no unit conversion takes place: for every such
configuration with int64-range size fields, adjusting twice equals
adjusting once. -/
theorem C2_adjust_idempotent_developed (c : Config) (hdev : c.Developed = true)
    (hM : c.MaxSize < 9223372036854775808)
    (hW : c.PerWriteSize < 9223372036854775808)
    (hS : c.PerSyncSize < 9223372036854775808) :
    c.adjust.adjust = c.adjust := by
  have hdev2 : c.adjust.Developed = true := by
    rw [adjust_Developed]
    exact hdev
  have hm0 : 0 < c.adjust.MaxSize := by
    rw [adjust_MaxSize_dev c hdev]
    exact convMaxSize_dev_pos c hdev hM
  have hmub : c.adjust.MaxSize < 9223372036854775808 := by
    rw [adjust_MaxSize_dev c hdev]
    exact convMaxSize_lt c
  have hw0 : 0 < c.adjust.PerWriteSize := by
    rw [adjust_PerWriteSize_dev c hdev]
    exact convPerWriteSize_dev_pos c hdev hW
  have hwub : c.adjust.PerWriteSize < 9223372036854775808 := by
    rw [adjust_PerWriteSize_dev c hdev]
    exact convPerWriteSize_lt c
  have hs0 : 0 < c.adjust.PerSyncSize := by
    rw [adjust_PerSyncSize_dev c hdev]
    exact convPerSyncSize_dev_pos c hdev hS
  have hsub : c.adjust.PerSyncSize < 9223372036854775808 := by
    rw [adjust_PerSyncSize_dev c hdev]
    exact convPerSyncSize_lt c
  have hb : 0 < c.adjust.MaxBackups := by
    rw [adjust_MaxBackups]
    unfold defaultMaxBackups
    split_ifs <;> omega
  apply config_eq_of_fields
  · rw [adjust_OutputPath]
  · rw [adjust_MaxSize_dev _ hdev2, convMaxSize_dev _ hdev2 hm0 hmub]
  · rw [adjust_MaxBackups, if_neg (by omega)]
  · rw [adjust_LocalTime]
  · rw [adjust_PerWriteSize_dev _ hdev2, convPerWriteSize_dev _ hdev2 hw0 hwub]
  · rw [adjust_PerSyncSize_dev _ hdev2, convPerSyncSize_dev _ hdev2 hs0 hsub]
  · rw [adjust_Developed]

/-- C2 (witness): idempotence instantiated at a concrete developed-mode
configuration. -/
theorem C2_witness :
    (Config.adjust ⟨"d", 5, 0, false, 3, 7, true⟩).adjust =
      Config.adjust ⟨"d", 5, 0, false, 3, 7, true⟩ :=
  C2_adjust_idempotent_developed ⟨"d", 5, 0, false, 3, 7, true⟩
    (by decide) (by decide) (by decide) (by decide)

/-- C3 (counterexample): with `MaxSize = 1` (MB) and `PerWriteSize = 2048`
(KB), the adjusted rotation size (1 MiB) is strictly below the adjusted
flush size (2 MiB): `adjust` never compares the two thresholds. -/
theorem C3_counterexample :
    (Config.adjust ⟨"", 1, 0, false, 2048, 0, false⟩).MaxSize <
      (Config.adjust ⟨"", 1, 0, false, 2048, 0, false⟩).PerWriteSize := by
  decide

/-- C3 (amended): in non-developed mode with in-range raw sizes, the
adjusted rotation size is at least the adjusted flush size provided the
unit-converted (default-substituted) rotation size is at least the
unit-converted flush size; page alignment preserves the order. -/
theorem C3_maxsize_ge_perwrite (c : Config) (hdev : c.Developed = false)
    (hM : c.MaxSize ≤ 8796093022207)
    (hW : c.PerWriteSize ≤ 4503599627370494)
    (hle : c.convPerWriteSize ≤ c.convMaxSize) :
    c.adjust.PerWriteSize ≤ c.adjust.MaxSize := by
  obtain ⟨hm0, hmub⟩ := convMaxSize_pos_le c hdev hM
  obtain ⟨hw0, hwub⟩ := convPerWriteSize_pos_le c hdev hW
  rw [adjust_MaxSize_not_dev c hdev, adjust_PerWriteSize_not_dev c hdev,
    alignToPage_eq (by omega) (by omega), alignToPage_eq (by omega) (by omega)]
  omega

/-- C3 (witness): the amended order instantiated at the all-default
configuration. -/
theorem C3_witness :
    (Config.adjust ⟨"", 0, 0, false, 0, 0, false⟩).PerWriteSize ≤
      (Config.adjust ⟨"", 0, 0, false, 0, 0, false⟩).MaxSize :=
  C3_maxsize_ge_perwrite ⟨"", 0, 0, false, 0, 0, false⟩
    (by decide) (by decide) (by decide) (by decide)

/-- C4 (counterexample): with raw `MaxSize = 2^44` (MB) the int64 unit
conversion overflows to `0`, and the adjusted rotation size is `0`, not
strictly positive. -/
theorem C4_counterexample :
    ¬ (0 < (Config.adjust ⟨"", 17592186044416, 0, false, 0, 0, false⟩).MaxSize ∧
       0 < (Config.adjust ⟨"", 17592186044416, 0, false, 0, 0, false⟩).PerWriteSize ∧
       0 < (Config.adjust ⟨"", 17592186044416, 0, false, 0, 0, false⟩).PerSyncSize) := by
  decide

/-- C4 (amended): for every raw configuration whose positive size fields fit
in int64 after unit conversion (`MaxSize ≤ 2^43 - 1`,
`PerWriteSize ≤ 2^52 - 2`, `PerSyncSize ≤ 2^43 - 1`), the three adjusted
size thresholds are strictly positive. -/
theorem C4_adjusted_sizes_positive (c : Config)
    (hM : c.MaxSize ≤ 8796093022207)
    (hW : c.PerWriteSize ≤ 4503599627370494)
    (hS : c.PerSyncSize ≤ 8796093022207) :
    0 < c.adjust.MaxSize ∧ 0 < c.adjust.PerWriteSize ∧
      0 < c.adjust.PerSyncSize := by
  cases hdev : c.Developed
  · obtain ⟨hm0, hmub⟩ := convMaxSize_pos_le c hdev hM
    obtain ⟨hw0, hwub⟩ := convPerWriteSize_pos_le c hdev hW
    obtain ⟨hs0, hsub⟩ := convPerSyncSize_pos_le c hdev hS
    rw [adjust_MaxSize_not_dev c hdev, adjust_PerWriteSize_not_dev c hdev,
      adjust_PerSyncSize_not_dev c hdev, wrap64_of_range (by omega) (by omega)]
    refine ⟨?_, ?_, ?_⟩
    · rw [alignToPage_eq (by omega) (by omega)]
      omega
    · rw [alignToPage_eq (by omega) (by omega)]
      omega
    · by_cases hc : c.convPerSyncSize < 2 * c.convPerWriteSize
      · rw [if_pos hc, alignToPage_eq (by omega) (by omega)]
        omega
      · rw [if_neg hc, alignToPage_eq (by omega) (by omega)]
        omega
  · rw [adjust_MaxSize_dev c hdev, adjust_PerWriteSize_dev c hdev,
      adjust_PerSyncSize_dev c hdev]
    exact ⟨convMaxSize_dev_pos c hdev (by omega),
      convPerWriteSize_dev_pos c hdev (by omega),
      convPerSyncSize_dev_pos c hdev (by omega)⟩

/-- C4 (witness): positivity instantiated at the all-default
configuration. -/
theorem C4_witness :
    0 < (Config.adjust ⟨"", 0, 0, false, 0, 0, false⟩).MaxSize ∧
      0 < (Config.adjust ⟨"", 0, 0, false, 0, 0, false⟩).PerWriteSize ∧
      0 < (Config.adjust ⟨"", 0, 0, false, 0, 0, false⟩).PerSyncSize :=
  C4_adjusted_sizes_positive ⟨"", 0, 0, false, 0, 0, false⟩
    (by decide) (by decide) (by decide)

/-- C5 (counterexample): with raw `PerWriteSize = 2^53 - 1` (KB) the
converted flush size is `2^63 - 1024`; aligning it overflows int64 and the
adjusted flush size (`-2^63`) is not the converted value rounded up to the
nearest multiple of 4096 (which would be `2^63`, unrepresentable). -/
theorem C5_counterexample :
    (Config.adjust ⟨"", 0, 0, false, 9007199254740991, 0, false⟩).PerWriteSize ≠
      roundUpToPage
        (Config.convPerWriteSize ⟨"", 0, 0, false, 9007199254740991, 0, false⟩) := by
  decide

/-- C5 (amended): in non-developed mode, the three adjusted sizes are always
exact multiples of 4096; and when the raw sizes are small enough for the
int64 conversions not to overflow (`MaxSize ≤ 2^43 - 1`,
`PerWriteSize ≤ 2^52 - 2`, `PerSyncSize ≤ 2^43 - 1`), each adjusted size is
the unit-converted (and, for the sync size, clamped to twice the converted
flush size) value rounded up to the nearest multiple of 4096. -/
theorem C5_nonrelaxed_page_alignment (c : Config) (hdev : c.Developed = false) :
    c.adjust.MaxSize % 4096 = 0 ∧ c.adjust.PerWriteSize % 4096 = 0 ∧
      c.adjust.PerSyncSize % 4096 = 0 ∧
      (c.MaxSize ≤ 8796093022207 →
        c.adjust.MaxSize = roundUpToPage c.convMaxSize) ∧
      (c.PerWriteSize ≤ 4503599627370494 →
        c.adjust.PerWriteSize = roundUpToPage c.convPerWriteSize) ∧
      (c.PerWriteSize ≤ 4503599627370494 → c.PerSyncSize ≤ 8796093022207 →
        c.adjust.PerSyncSize =
          roundUpToPage (max c.convPerSyncSize (2 * c.convPerWriteSize))) := by
  refine ⟨?_, ?_, ?_, ?_, ?_, ?_⟩
  · rw [adjust_MaxSize_not_dev c hdev]
    exact alignToPage_emod _
  · rw [adjust_PerWriteSize_not_dev c hdev]
    exact alignToPage_emod _
  · rw [adjust_PerSyncSize_not_dev c hdev]
    exact alignToPage_emod _
  · intro hM
    obtain ⟨hm0, hmub⟩ := convMaxSize_pos_le c hdev hM
    rw [adjust_MaxSize_not_dev c hdev]
    exact alignToPage_eq_roundUp (by omega) (by omega)
  · intro hW
    obtain ⟨hw0, hwub⟩ := convPerWriteSize_pos_le c hdev hW
    rw [adjust_PerWriteSize_not_dev c hdev]
    exact alignToPage_eq_roundUp (by omega) (by omega)
  · intro hW hS
    obtain ⟨hw0, hwub⟩ := convPerWriteSize_pos_le c hdev hW
    obtain ⟨hs0, hsub⟩ := convPerSyncSize_pos_le c hdev hS
    rw [adjust_PerSyncSize_not_dev c hdev, wrap64_of_range (by omega) (by omega)]
    have hmax : (if c.convPerSyncSize < 2 * c.convPerWriteSize
        then 2 * c.convPerWriteSize else c.convPerSyncSize) =
        max c.convPerSyncSize (2 * c.convPerWriteSize) := by
      by_cases hc : c.convPerSyncSize < 2 * c.convPerWriteSize
      · rw [if_pos hc]
        omega
      · rw [if_neg hc]
        omega
    rw [hmax]
    exact alignToPage_eq_roundUp (by omega) (by omega)

/-- C5 (witness): the amended alignment facts instantiated at the
all-default configuration. -/
theorem C5_witness :
    (Config.adjust ⟨"", 0, 0, false, 0, 0, false⟩).MaxSize % 4096 = 0 ∧
      (Config.adjust ⟨"", 0, 0, false, 0, 0, false⟩).PerWriteSize % 4096 = 0 ∧
      (Config.adjust ⟨"", 0, 0, false, 0, 0, false⟩).PerSyncSize % 4096 = 0 ∧
      (Config.adjust ⟨"", 0, 0, false, 0, 0, false⟩).MaxSize =
        roundUpToPage (Config.convMaxSize ⟨"", 0, 0, false, 0, 0, false⟩) ∧
      (Config.adjust ⟨"", 0, 0, false, 0, 0, false⟩).PerWriteSize =
        roundUpToPage (Config.convPerWriteSize ⟨"", 0, 0, false, 0, 0, false⟩) ∧
      (Config.adjust ⟨"", 0, 0, false, 0, 0, false⟩).PerSyncSize =
        roundUpToPage
          (max (Config.convPerSyncSize ⟨"", 0, 0, false, 0, 0, false⟩)
            (2 * Config.convPerWriteSize ⟨"", 0, 0, false, 0, 0, false⟩)) :=
  ⟨(C5_nonrelaxed_page_alignment ⟨"", 0, 0, false, 0, 0, false⟩ (by decide)).1,
    (C5_nonrelaxed_page_alignment _ (by decide)).2.1,
    (C5_nonrelaxed_page_alignment _ (by decide)).2.2.1,
    (C5_nonrelaxed_page_alignment _ (by decide)).2.2.2.1 (by decide),
    (C5_nonrelaxed_page_alignment _ (by decide)).2.2.2.2.1 (by decide),
    (C5_nonrelaxed_page_alignment _ (by decide)).2.2.2.2.2 (by decide) (by decide)⟩

/-- C6: a configuration whose size and backup fields are all zero receives
exactly the documented defaults after `adjust`: rotation size 134217728
bytes (128 MiB), 4 backups, flush size 65536 bytes (64 KiB), sync size
16777216 bytes (16 MiB) — for any output path, local-time flag, and
developed flag (the defaults are already page-aligned, so alignment leaves
them unchanged). -/
theorem C6_zero_config_defaults (p : String) (lt dev : Bool) :
    Config.adjust ⟨p, 0, 0, lt, 0, 0, dev⟩ =
      ⟨p, 134217728, 4, lt, 65536, 16777216, dev⟩ := by
  cases dev <;> rfl

/-- C7 (counterexample): with raw `PerWriteSize = 2^52` (KB) the converted
flush size is `2^62`; its int64 doubling wraps to `-2^63`, so the
mathematically-smaller sync size (1 MiB) is *not* forced up, and the final
sync size differs from `alignToPage` of twice the converted flush size. -/
theorem C7_counterexample :
    Config.convPerSyncSize ⟨"", 0, 0, false, 4503599627370496, 1, false⟩ <
        2 * Config.convPerWriteSize ⟨"", 0, 0, false, 4503599627370496, 1, false⟩ ∧
      (Config.adjust ⟨"", 0, 0, false, 4503599627370496, 1, false⟩).PerSyncSize ≠
        alignToPage
          (2 * Config.convPerWriteSize ⟨"", 0, 0, false, 4503599627370496, 1, false⟩) := by
  decide

/-- C7 (amended): in non-developed mode with raw `PerWriteSize ≤ 2^52 - 2`
(so the int64 doubling cannot overflow), whenever the unit-converted sync
size is smaller than twice the unit-converted flush size, the final sync
size is exactly `alignToPage` of twice the converted flush size: the
forcing happens first and page alignment is applied afterwards. -/
theorem C7_sync_forced_then_aligned (c : Config) (hdev : c.Developed = false)
    (hW : c.PerWriteSize ≤ 4503599627370494)
    (hlt : c.convPerSyncSize < 2 * c.convPerWriteSize) :
    c.adjust.PerSyncSize = alignToPage (2 * c.convPerWriteSize) := by
  obtain ⟨hw0, hwub⟩ := convPerWriteSize_pos_le c hdev hW
  rw [adjust_PerSyncSize_not_dev c hdev, wrap64_of_range (by omega) (by omega),
    if_pos hlt]

/-- C7 (witness): the forced-then-aligned equation instantiated at
`PerWriteSize = 525` KB, `PerSyncSize = 1` MB. -/
theorem C7_witness :
    (Config.adjust ⟨"", 0, 0, false, 525, 1, false⟩).PerSyncSize =
      alignToPage (2 * Config.convPerWriteSize ⟨"", 0, 0, false, 525, 1, false⟩) :=
  C7_sync_forced_then_aligned ⟨"", 0, 0, false, 525, 1, false⟩
    (by decide) (by decide) (by decide)

/-- C8: `adjust` is a total function on configurations and changes nothing
beyond the four size/backup fields: the output path, the local-time flag,
and the developed flag are left unchanged for every raw configuration. -/
theorem C8_adjust_frame (c : Config) :
    c.adjust.OutputPath = c.OutputPath ∧ c.adjust.LocalTime = c.LocalTime ∧
      c.adjust.Developed = c.Developed :=
  ⟨adjust_OutputPath c, adjust_LocalTime c, adjust_Developed c⟩

/-- C9: strictly negative fields behave exactly like zero: adjusting a
configuration whose negative size/backup fields are replaced by zero gives
the same result as adjusting the original, and during `adjust` a negative
`MaxSize`/`PerWriteSize`/`PerSyncSize` is replaced by its documented
default (as is a negative `MaxBackups`). -/
theorem C9_negative_fields_like_zero (c : Config) :
    (zeroNegFields c).adjust = c.adjust ∧
      (c.MaxSize < 0 → c.convMaxSize = defaultMaxSize) ∧
      (c.PerWriteSize < 0 → c.convPerWriteSize = defaultPerWriteSize) ∧
      (c.PerSyncSize < 0 → c.convPerSyncSize = defaultPerSyncSize) ∧
      (c.MaxBackups < 0 → c.adjust.MaxBackups = defaultMaxBackups) := by
  refine ⟨?_, ?_, ?_, ?_, ?_⟩
  · exact adjust_congr (zeroNegFields c) c rfl rfl rfl (zeroNeg_convMaxSize c)
      (zeroNeg_convPerWriteSize c) (zeroNeg_convPerSyncSize c) (zeroNeg_backups c)
  · intro h
    unfold Config.convMaxSize
    rw [if_pos (le_of_lt h)]
  · intro h
    unfold Config.convPerWriteSize
    rw [if_pos (le_of_lt h)]
  · intro h
    unfold Config.convPerSyncSize
    rw [if_pos (le_of_lt h)]
  · intro h
    rw [adjust_MaxBackups, if_pos (le_of_lt h)]

/-- C9 (witness): the negative-equals-zero facts instantiated at a
configuration with all four fields negative. -/
theorem C9_witness :
    (zeroNegFields ⟨"log", -1, -2, true, -3, -4, false⟩).adjust =
        Config.adjust ⟨"log", -1, -2, true, -3, -4, false⟩ ∧
      Config.convMaxSize ⟨"log", -1, -2, true, -3, -4, false⟩ = defaultMaxSize ∧
      Config.convPerWriteSize ⟨"log", -1, -2, true, -3, -4, false⟩ =
        defaultPerWriteSize ∧
      Config.convPerSyncSize ⟨"log", -1, -2, true, -3, -4, false⟩ =
        defaultPerSyncSize ∧
      (Config.adjust ⟨"log", -1, -2, true, -3, -4, false⟩).MaxBackups =
        defaultMaxBackups :=
  ⟨(C9_negative_fields_like_zero ⟨"log", -1, -2, true, -3, -4, false⟩).1,
    (C9_negative_fields_like_zero _).2.1 (by decide),
    (C9_negative_fields_like_zero _).2.2.1 (by decide),
    (C9_negative_fields_like_zero _).2.2.2.1 (by decide),
    (C9_negative_fields_like_zero _).2.2.2.2 (by decide)⟩

/-- C10: in developed (relaxed) mode, positive sizes pass through `adjust`
verbatim: no unit multiplication, no page alignment, and no forcing of the
sync size is applied to `MaxSize`, `PerWriteSize`, `PerSyncSize` when all
three are positive int64 values. -/
theorem C10_developed_passthrough (c : Config) (hdev : c.Developed = true)
    (hM0 : 0 < c.MaxSize) (hM1 : c.MaxSize < 9223372036854775808)
    (hW0 : 0 < c.PerWriteSize) (hW1 : c.PerWriteSize < 9223372036854775808)
    (hS0 : 0 < c.PerSyncSize) (hS1 : c.PerSyncSize < 9223372036854775808) :
    c.adjust.MaxSize = c.MaxSize ∧ c.adjust.PerWriteSize = c.PerWriteSize ∧
      c.adjust.PerSyncSize = c.PerSyncSize := by
  rw [adjust_MaxSize_dev c hdev, adjust_PerWriteSize_dev c hdev,
    adjust_PerSyncSize_dev c hdev]
  exact ⟨convMaxSize_dev c hdev hM0 hM1, convPerWriteSize_dev c hdev hW0 hW1,
    convPerSyncSize_dev c hdev hS0 hS1⟩

/-- C10 (witness): pass-through instantiated at a concrete developed-mode
configuration with odd, non-page-aligned sizes. -/
theorem C10_witness :
    (Config.adjust ⟨"p", 5, 0, false, 3, 7, true⟩).MaxSize = 5 ∧
      (Config.adjust ⟨"p", 5, 0, false, 3, 7, true⟩).PerWriteSize = 3 ∧
      (Config.adjust ⟨"p", 5, 0, false, 3, 7, true⟩).PerSyncSize = 7 :=
  C10_developed_passthrough ⟨"p", 5, 0, false, 3, 7, true⟩ (by decide)
    (by decide) (by decide) (by decide) (by decide) (by decide) (by decide)

example : alignToPage 0 = 0 := by decide
example : alignToPage 1 = 4096 := by decide
example : alignToPage 4096 = 4096 := by decide
example : alignToPage (-4096) = -4096 := by decide
example : alignToPage 9223372036854774784 = -9223372036854775808 := by decide

end Zaproll
